import Mathlib

/-!
# Verification of the semantic-scholar-fetcher core

Shallow embedding of the data-acquisition and rate-limited retry engine of the
`semantic-scholar-fetcher` Zotero plugin (`src/lib/api.js`, `src/lib/item-utils.js`,
`src/plugin.js`), together with proofs of the specified properties.

Modelling conventions:
* JS strings are Lean `String`s; a missing/empty field is `""` (JS falsiness of
  strings distinguishes only empty from non-empty, which is all this code uses).
* Values that can be `null`/`undefined` with observable difference from `""`
  are `Option _`.
* An HTTP interaction is a value of `NetResp α`: either a response with a
  status code and a body whose JSON parse either succeeded (`Parsed.ok`) or
  would throw with some message (`Parsed.thrown msg`), or a transport
  exception with a message.  The catch-blocks of the source test whether the
  exception message contains the substring `"429"`.
* Time (delays, timeouts) is not modelled; only the evolution of the backoff
  delay value is.
-/

namespace SemScholar

/-! ## JS character classes and string helpers -/

/-- JS regex class `\w` without the unicode flag: `[A-Za-z0-9_]`. -/
def jsWordChar (c : Char) : Bool :=
  c.isAlphanum || c = '_'

/-- JS regex class `\s` (ASCII part): space, tab, newline, carriage return,
vertical tab, form feed. -/
def jsSpace (c : Char) : Bool :=
  c = ' ' || c = '\t' || c = '\n' || c = '\r' || c = '\x0b' || c = '\x0c'

/-- Does `s` contain `sub` as a contiguous substring? -/
def containsSub (sub : List Char) : List Char → Bool
  | [] => sub.isEmpty
  | c :: rest => sub.isPrefixOf (c :: rest) || containsSub sub rest

/-- JS `msg.includes('429')`: does the string contain `"429"` as a substring? -/
def includes429 (msg : String) : Bool :=
  containsSub "429".toList msg.toList

/-- Worker for `collapseWs`; the flag records whether the previous character
belonged to a whitespace run (whose single replacement space was already
emitted). -/
def collapseWsAux : Bool → List Char → List Char
  | _, [] => []
  | prevWs, c :: cs =>
    if jsSpace c then
      if prevWs then collapseWsAux true cs
      else ' ' :: collapseWsAux true cs
    else c :: collapseWsAux false cs

/-- JS `replace(/\s+/g, ' ')`: every maximal run of whitespace characters
becomes a single space. -/
def collapseWs (l : List Char) : List Char :=
  collapseWsAux false l

/-- JS `String.prototype.trim()` restricted to the whitespace class above. -/
def trimChars (l : List Char) : List Char :=
  ((l.dropWhile fun c => jsSpace c).reverse.dropWhile fun c => jsSpace c).reverse

/-- Model of `ItemUtils.normalizeTitle` (item-utils.js:23–28):
`title.toLowerCase().replace(/[^\w\s]/g, '').replace(/\s+/g, ' ').trim()`. -/
def normalizeTitle (title : String) : String :=
  ⟨trimChars (collapseWs ((title.toList.map Char.toLower).filter
      fun c => jsWordChar c || jsSpace c))⟩

/-- The claim's description of the normalization ("strips every character that
is not alphanumeric or whitespace"): identical to `normalizeTitle` except that
the underscore is stripped as well.  Written from the spec's words, for
comparison with the source's `normalizeTitle`. -/
def normalizeTitleClaimed (title : String) : String :=
  ⟨trimChars (collapseWs ((title.toList.map Char.toLower).filter
      fun c => c.isAlphanum || jsSpace c))⟩

/-! ## Fetch outcomes and request classification -/

/-- The `{data, rateLimited}` pair returned by every fetch routine.
`Found` ≙ `data = some _`, `NotFound` ≙ `⟨none, false⟩`,
`RateLimited` ≙ `⟨none, true⟩`. -/
structure Outcome (α : Type) where
  data : Option α
  rateLimited : Bool
deriving DecidableEq, Repr

/-- Result of `JSON.parse` on a response body: either the parsed value, or the
message of the exception the parse would throw. -/
inductive Parsed (α : Type) where
  | ok (val : α)
  | thrown (msg : String)
deriving DecidableEq, Repr

/-- A single HTTP interaction as seen by the code: either a response with a
status and a JSON-parse result for its body, or a thrown transport error. -/
inductive NetResp (α : Type) where
  | http (status : Nat) (body : Parsed α)
  | exn (msg : String)
deriving DecidableEq, Repr

/-- Model of `SemanticScholarAPI.makeRequest` (api.js:76–102): classify one response.
429 → rate limited; other non-200 → not found; 200 with parseable JSON →
found; any thrown error → rate limited iff its message contains `'429'`. -/
def makeRequest {α : Type} (r : NetResp α) : Outcome α :=
  match r with
  | .http status body =>
    if status = 429 then ⟨none, true⟩
    else if status ≠ 200 then ⟨none, false⟩
    else
      match body with
      | .ok d => ⟨some d, false⟩
      | .thrown msg => if includes429 msg then ⟨none, true⟩ else ⟨none, false⟩
  | .exn msg => if includes429 msg then ⟨none, true⟩ else ⟨none, false⟩

/-! ## Title search (`fetchByTitle`) -/

/-- A candidate paper as it appears in a search response.  `title` is an
`Option` because the service may omit it (`null`/missing), which the source
does not guard against before calling `normalizeTitle`. -/
structure Paper where
  paperId : String
  title : Option String
deriving DecidableEq, Repr

/-- The body of a `/paper/search` response after `JSON.parse`:
`responseData.data` may be missing (`none`) or a list of candidates. -/
abbrev SearchBody := Option (List Paper)

/-- The message of the `TypeError` the host runtime throws for
`paper.title.toLowerCase()` when `paper.title` is `null`/`undefined`
(it contains no occurrence of `"429"`). -/
def nullTitleErrMsg : String := "paper.title is null"

/-- The `for (const paper of responseData.data)` loop of `fetchByTitle`
(api.js:190–196), in an exception monad: `normalizeTitle(paper.title)` is
evaluated *before* the `paper.title &&` truthiness guard, so a `null`/missing
title throws; a candidate with an empty-string title is skipped by the
truthiness guard even when its normalized title equals the query's. -/
def findTitleMatch (query : String) : List Paper → Except String (Option Paper)
  | [] => .ok none
  | p :: ps =>
    match p.title with
    | none => .error nullTitleErrMsg
    | some t =>
      if t ≠ "" && normalizeTitle t == normalizeTitle query then .ok (some p)
      else findTitleMatch query ps

/-- Model of `SemanticScholarAPI.fetchByTitle` (api.js:160–207): classify the search
response like `makeRequest`, then scan the candidate list for the first exact
normalized-title match; an exception thrown by the scan is caught by the same
catch-block, which checks the message for `'429'`. -/
def fetchByTitle (resp : NetResp SearchBody) (query : String) : Outcome Paper :=
  match resp with
  | .exn msg => if includes429 msg then ⟨none, true⟩ else ⟨none, false⟩
  | .http status body =>
    if status = 429 then ⟨none, true⟩
    else if status ≠ 200 then ⟨none, false⟩
    else
      match body with
      | .thrown msg => if includes429 msg then ⟨none, true⟩ else ⟨none, false⟩
      | .ok none => ⟨none, false⟩
      | .ok (some papers) =>
        if papers.isEmpty then ⟨none, false⟩
        else
          match findTitleMatch query papers with
          | .ok (some p) => ⟨some p, false⟩
          | .ok none => ⟨none, false⟩
          | .error msg => if includes429 msg then ⟨none, true⟩ else ⟨none, false⟩

/-- Spec-side description of the matching loop: the first candidate with a
non-empty title whose normalization equals the query's normalization. -/
def firstExactMatch (query : String) (papers : List Paper) : Option Paper :=
  papers.find? fun p =>
    match p.title with
    | none => false
    | some t => t ≠ "" && normalizeTitle t == normalizeTitle query

/-! ## Retry queue and backoff (`addToRetryQueue`, `processRetryQueue`) -/

/-- One entry of `SemanticScholarAPI.retryQueue`: a record reference (its id)
and the number of rate-limited attempts so far. -/
structure QEntry where
  itemId : Nat
  retryCount : Nat
deriving DecidableEq, Repr

/-- Model of `SemanticScholarAPI.maxRetries` (api.js:15). -/
def maxRetries : Nat := 5

/-- Model of `SemanticScholarAPI.maxRetryDelay` (api.js:14), in milliseconds. -/
def maxRetryDelay : Nat := 60000

/-- The initial/floor retry delay (api.js:13, reset value at api.js:319). -/
def initialRetryDelay : Nat := 2000

/-- Model of `SemanticScholarAPI.addToRetryQueue` (api.js:273–284): refuse entries at or
above `maxRetries`; refuse records already queued; otherwise append. -/
def addToRetryQueue (q : List QEntry) (itemId : Nat) (retryCount : Nat) :
    List QEntry :=
  if maxRetries ≤ retryCount then q
  else if q.any fun e => e.itemId = itemId then q
  else q ++ [⟨itemId, retryCount⟩]

/-- The mutable state touched by `processRetryQueue`: the queue and the global
backoff delay. -/
structure RetryState where
  queue : List QEntry
  retryDelay : Nat
deriving DecidableEq, Repr

/-- One iteration of the `while` loop of `processRetryQueue` (api.js:303–325),
parameterised by the outcome `fetchCallback` produces for each record:
shift the front entry; on a rate-limited outcome re-insert it at the front
with `retryCount + 1` (no cap check) and double the backoff delay capped at
`maxRetryDelay`; on a found outcome drop it and reset the delay to 2000 ms;
on a not-found outcome drop it and leave the delay unchanged. -/
def drainStep (st : RetryState) (fetch : Nat → Outcome Paper) : RetryState :=
  match st.queue with
  | [] => st
  | e :: rest =>
    let r := fetch e.itemId
    if r.rateLimited then
      { queue := ⟨e.itemId, e.retryCount + 1⟩ :: rest,
        retryDelay := min (st.retryDelay * 2) maxRetryDelay }
    else if r.data.isSome then
      { queue := rest, retryDelay := initialRetryDelay }
    else
      { queue := rest, retryDelay := st.retryDelay }

/-- A fetch callback that is rate-limited on every call. -/
def alwaysRateLimited : Nat → Outcome Paper := fun _ => ⟨none, true⟩

/-! ## Batch fetch (`batchFetch`) -/

/-- One row of a `/paper/batch` response: the service returns one entry per
requested id, `null` for ids it cannot resolve. -/
abbrev Row := Option Paper

/-- Model of `SemanticScholarAPI.batchFetch`'s `batchSize` (api.js:222). -/
def batchSize : Nat := 500

/-- Model of `SemanticScholarAPI.batchFetch` (api.js:215–266), instrumented with the
list of chunk requests issued.  `net k` is the HTTP interaction of the
`k`-th chunk request.  Per loop iteration over a 500-id slice: status 429
breaks with the rate-limited flag; status 200 appends the parsed rows;
any other status appends nothing and continues; a thrown error (transport or
parse) breaks iff its message contains `'429'`, else continues.  Returns
`(results, rateLimited, chunk requests issued)`. -/
def batchFetchGo (net : Nat → NetResp (List Row)) (k : Nat) (ids : List String) :
    List Row × Bool × List (List String) :=
  match ids with
  | [] => ([], false, [])
  | id0 :: rest =>
    match net k with
    | .http status body =>
      if status = 429 then ([], true, [(id0 :: rest).take batchSize])
      else if status = 200 then
        match body with
        | .ok rows =>
          let r := batchFetchGo net (k + 1) ((id0 :: rest).drop batchSize)
          (rows ++ r.1, r.2.1, (id0 :: rest).take batchSize :: r.2.2)
        | .thrown msg =>
          if includes429 msg then ([], true, [(id0 :: rest).take batchSize])
          else
            let r := batchFetchGo net (k + 1) ((id0 :: rest).drop batchSize)
            (r.1, r.2.1, (id0 :: rest).take batchSize :: r.2.2)
      else
        let r := batchFetchGo net (k + 1) ((id0 :: rest).drop batchSize)
        (r.1, r.2.1, (id0 :: rest).take batchSize :: r.2.2)
    | .exn msg =>
      if includes429 msg then ([], true, [(id0 :: rest).take batchSize])
      else
        let r := batchFetchGo net (k + 1) ((id0 :: rest).drop batchSize)
        (r.1, r.2.1, (id0 :: rest).take batchSize :: r.2.2)
termination_by ids.length
decreasing_by all_goals
  simp only [List.length_drop, List.length_cons, batchSize]
  omega

/-- Entry point `batchFetch`: (the `ids.length === 0` early return is the
`[]` case of `batchFetchGo`). -/
def batchFetch (ids : List String) (net : Nat → NetResp (List Row)) :
    List Row × Bool × List (List String) :=
  batchFetchGo net 0 ids

/-! ## Records and identifier resolution (`ItemUtils`) -/

/-- The JSON object `ItemUtils._setStoredData` keeps in the hidden
`<semantic-scholar-data>` child note. -/
structure StoredData where
  citationCount : Option Int
  influentialCitationCount : Option Int
  referenceCount : Option Int
  paperId : Option String
  lastUpdated : String
  arXivId : Option String
  fieldsOfStudy : Option (List String)
deriving DecidableEq, Repr

/-- A Zotero item as the core reads and writes it.  String fields are the
results of `item.getField(...)`, with `""` for an empty field.  `sideStore`
models `_getStoredData` — `none` when there is no storage note or its JSON
does not parse. -/
structure Item where
  isRegular : Bool
  itemType : String
  title : String
  doi : String
  url : String
  extra : String
  abstractNote : String
  date : String
  publicationTitle : String
  proceedingsTitle : String
  bookTitle : String
  sideStore : Option StoredData
deriving DecidableEq, Repr

/-- Case-insensitive ASCII prefix match: if `pat` matches the start of `s` up
to ASCII case, return the remainder of `s`. -/
def matchCIPrefix : List Char → List Char → Option (List Char)
  | [], s => some s
  | _ :: _, [] => none
  | p :: ps, c :: cs => if c.toLower = p.toLower then matchCIPrefix ps cs else none

/-- Attempt `(\d+\.\d+)` at the head of `s`, returning the captured text.
The two `\d+` are greedy; a digit can never match the literal `.`, so no
backtracking arises. -/
def matchNumDotNum (s : List Char) : Option String :=
  let d1 := s.takeWhile Char.isDigit
  match s.dropWhile Char.isDigit with
  | '.' :: r2 =>
    let d2 := r2.takeWhile Char.isDigit
    if d1.isEmpty || d2.isEmpty then none else some ⟨d1 ++ '.' :: d2⟩
  | _ => none

/-- Try an anchored pattern at every position of `s` from the left: the JS
regex-engine search order (leftmost successful position wins). -/
def searchPat (f : List Char → Option String) : List Char → Option String
  | [] => f []
  | c :: rest =>
    match f (c :: rest) with
    | some r => some r
    | none => searchPat f rest

/-- Model of `/arXiv:\s*(\d+\.\d+)/i` attempted at one position. -/
def matchArxivExtraAt (s : List Char) : Option String :=
  (matchCIPrefix "arxiv:".toList s).bind fun r =>
    matchNumDotNum (r.dropWhile fun c => jsSpace c)

/-- Model of `/arxiv\.org\/abs\/(\d+\.\d+)/i` attempted at one position. -/
def matchArxivUrlAt (s : List Char) : Option String :=
  (matchCIPrefix "arxiv.org/abs/".toList s).bind fun r => matchNumDotNum r

/-- Model of `/PMID:\s*(\d+)/i` attempted at one position. -/
def matchPmidAt (s : List Char) : Option String :=
  (matchCIPrefix "pmid:".toList s).bind fun r =>
    let d := (r.dropWhile fun c => jsSpace c).takeWhile Char.isDigit
    if d.isEmpty then none else some ⟨d⟩

/-- Model of `ItemUtils.getDOI` (item-utils.js:68–70): `item.getField('DOI') || null`. -/
def getDOI (item : Item) : Option String :=
  if item.doi = "" then none else some item.doi

/-- Model of `ItemUtils.getArxivId` (item-utils.js:40–50): the free-text annotation
pattern on the Extra field first, else the URL pattern. -/
def getArxivId (item : Item) : Option String :=
  match searchPat matchArxivExtraAt item.extra.toList with
  | some v => some v
  | none => searchPat matchArxivUrlAt item.url.toList

/-- Model of `ItemUtils.getPMID` (item-utils.js:57–61): the free-text pattern on the
Extra field. -/
def getPMID (item : Item) : Option String :=
  searchPat matchPmidAt item.extra.toList

/-- Model of `ItemUtils.getScholarId` (item-utils.js:180–185): `data.paperId || null`
from the stored side-store data, `null` for non-regular items or when there is
no stored data. -/
def getScholarId (item : Item) : Option String :=
  if item.isRegular = false then none
  else
    match item.sideStore with
    | none => none
    | some d =>
      match d.paperId with
      | none => none
      | some p => if p = "" then none else some p

/-! ## Per-record fetch (`fetchDataForItem`) -/

/-- A catalog request the orchestrator can issue. -/
inductive Req where
  | doi (v : String)
  | arxiv (v : String)
  | pmid (v : String)
  | scholar (v : String)
  | titleSearch (t : String)
deriving DecidableEq, Repr

/-- The network as the orchestrator sees it: a response for each identifier
lookup (`fetchByDOI`/`fetchByArxivId`/`fetchByPMID`/`fetchByScholarId`, which
all classify via `makeRequest`) and for each title search. -/
structure Net where
  lookup : Req → NetResp Paper
  search : String → NetResp SearchBody

/-- One identifier lookup inside `fetchDataForItem`, followed by the caller's
two early returns (`if (result.rateLimited) return result; if (result.data)
return result;`, plugin.js:287–288 etc.); `tr` is the trace of requests
already issued and `next` the continuation for the not-found case. -/
def tryLookup (net : Net) (req : Req) (tr : List Req)
    (next : List Req → Outcome Paper × List Req) : Outcome Paper × List Req :=
  let r := makeRequest (net.lookup req)
  if r.rateLimited then (r, tr ++ [req])
  else if r.data.isSome then (r, tr ++ [req])
  else next (tr ++ [req])

/-- The final block of `fetchDataForItem` (plugin.js:315–328): a title search
only when `searchMode === 'title'` and the title is non-empty, else a fresh
`{data: null, rateLimited: false}`. -/
def fetchStepTitle (net : Net) (searchMode : String) (item : Item)
    (tr : List Req) : Outcome Paper × List Req :=
  if searchMode = "title" then
    if item.title ≠ "" then
      (fetchByTitle (net.search item.title) item.title,
        tr ++ [Req.titleSearch item.title])
    else (⟨none, false⟩, tr)
  else (⟨none, false⟩, tr)

/-- The stored-catalog-id block of `fetchDataForItem` (plugin.js:307–313). -/
def fetchStepScholar (net : Net) (searchMode : String) (item : Item)
    (tr : List Req) : Outcome Paper × List Req :=
  match getScholarId item with
  | some v => tryLookup net (Req.scholar v) tr (fetchStepTitle net searchMode item)
  | none => fetchStepTitle net searchMode item tr

/-- The PMID block of `fetchDataForItem` (plugin.js:299–305). -/
def fetchStepPmid (net : Net) (searchMode : String) (item : Item)
    (tr : List Req) : Outcome Paper × List Req :=
  match getPMID item with
  | some v => tryLookup net (Req.pmid v) tr (fetchStepScholar net searchMode item)
  | none => fetchStepScholar net searchMode item tr

/-- The arXiv block of `fetchDataForItem` (plugin.js:291–297). -/
def fetchStepArxiv (net : Net) (searchMode : String) (item : Item)
    (tr : List Req) : Outcome Paper × List Req :=
  match getArxivId item with
  | some v => tryLookup net (Req.arxiv v) tr (fetchStepPmid net searchMode item)
  | none => fetchStepPmid net searchMode item tr

/-- Model of `SemanticScholar.fetchDataForItem` (plugin.js:272–333), instrumented with
the list of requests issued: DOI, then arXiv id, then PMID, then stored
catalog id, each present identifier tried with an early return on a
rate-limited or found outcome (`tryLookup`); finally the title-search block
(`fetchStepTitle`). -/
def fetchDataForItem (net : Net) (searchMode : String) (item : Item) :
    Outcome Paper × List Req :=
  if item.isRegular = false then (⟨none, false⟩, [])
  else
    match getDOI item with
    | some v => tryLookup net (Req.doi v) [] (fetchStepArxiv net searchMode item)
    | none => fetchStepArxiv net searchMode item []

/-- The spec's `IdentifierResolver.resolve`: the ordered identifier candidates
of a record — DOI, arXiv id, PMID, existing catalog id (title handled
separately).  Written from the spec's words, for comparison with
`fetchDataForItem`. -/
def resolveCandidates (item : Item) : List Req :=
  ((getDOI item).map Req.doi).toList
    ++ (((getArxivId item).map Req.arxiv).toList
      ++ (((getPMID item).map Req.pmid).toList
        ++ ((getScholarId item).map Req.scholar).toList))

/-- Does an outcome stop the candidate iteration (`Found` or `RateLimited`)? -/
def isHit (r : Outcome Paper) : Bool :=
  r.rateLimited || r.data.isSome

/-- The spec's short-circuiting fold: issue the candidates in order and stop
at the first `Found` or `RateLimited` outcome; the second component is the
list of requests actually issued. -/
def runCandidates (net : Net) (acc : List Req) : List Req → Outcome Paper × List Req
  | [] => (⟨none, false⟩, acc)
  | c :: cs =>
    let r := makeRequest (net.lookup c)
    if isHit r then (r, acc ++ [c])
    else runCandidates net (acc ++ [c]) cs

/-- After the candidate fold: keep a hit; otherwise fall back to a title
search exactly when title-search mode is enabled and the record has a title. -/
def specTail (net : Net) (searchMode : String) (item : Item)
    (p : Outcome Paper × List Req) : Outcome Paper × List Req :=
  if isHit p.1 then p
  else if searchMode = "title" ∧ item.title ≠ "" then
    (fetchByTitle (net.search item.title) item.title,
      p.2 ++ [Req.titleSearch item.title])
  else (⟨none, false⟩, p.2)

/-- The spec's `fetchForRecord`: run the identifier candidates with the
short-circuiting fold; if none hit, fall back to a title search exactly when
title-search mode is enabled and the record has a title.  Written from the
spec's words, for comparison with `fetchDataForItem`. -/
def fetchForRecordSpec (net : Net) (searchMode : String) (item : Item) :
    Outcome Paper × List Req :=
  specTail net searchMode item (runCandidates net [] (resolveCandidates item))

/-! ## Field merging (`ItemUtils.applyDataToItem`) -/

/-- A parsed catalog result as `applyDataToItem` consumes it.  Fields tested
only for JS truthiness are `String` with `""` for absent; fields tested with
`!== undefined` are `Option Int`; `fieldsOfStudy` is tested via `?.length`,
so `[]` stands for absent. -/
structure SSData where
  paperId : String
  citationCount : Option Int
  influentialCitationCount : Option Int
  referenceCount : Option Int
  doi : String
  arXiv : String
  abstract : String
  publicationDate : String
  venue : String
  journalName : String
  openAccessPdfUrl : String
  fieldsOfStudy : List String
deriving DecidableEq, Repr

/-- The `storedData` object built in item-utils.js:215–239 and written to the
hidden note; `now` models `new Date().toLocaleDateString()`. -/
def buildStoredData (d : SSData) (sf : String → Bool) (now : String) : StoredData where
  citationCount := d.citationCount
  influentialCitationCount :=
    if sf "influentialCitationCount" then d.influentialCitationCount else none
  referenceCount := if sf "referenceCount" then d.referenceCount else none
  paperId := if d.paperId = "" then none else some d.paperId
  lastUpdated := now
  arXivId := if sf "arXivId" && d.arXiv ≠ "" then some d.arXiv else none
  fieldsOfStudy :=
    if sf "fieldsOfStudy" && d.fieldsOfStudy ≠ [] then some d.fieldsOfStudy else none

/-- The DOI block of `applyDataToItem` (item-utils.js:246–254). -/
def applyDOI (d : SSData) (sf : String → Bool) (ow : Bool) (it : Item) : Item :=
  if sf "DOI" && d.doi ≠ "" then
    if ow || it.doi = "" then { it with doi := d.doi } else it
  else it

/-- The abstract block of `applyDataToItem` (item-utils.js:256–264). -/
def applyAbstract (d : SSData) (sf : String → Bool) (ow : Bool) (it : Item) : Item :=
  if sf "abstract" && d.abstract ≠ "" then
    if ow || it.abstractNote = "" then { it with abstractNote := d.abstract } else it
  else it

/-- The publication-date block of `applyDataToItem` (item-utils.js:266–274). -/
def applyDate (d : SSData) (sf : String → Bool) (ow : Bool) (it : Item) : Item :=
  if sf "publicationDate" && d.publicationDate ≠ "" then
    if ow || it.date = "" then { it with date := d.publicationDate } else it
  else it

/-- Model of `data.journal?.name || data.venue` (item-utils.js:277). -/
def venueValue (d : SSData) : String :=
  if d.journalName ≠ "" then d.journalName else d.venue

/-- The venue block of `applyDataToItem` (item-utils.js:276–298); the target
field is selected by the item's type. -/
def applyVenue (d : SSData) (sf : String → Bool) (ow : Bool) (it : Item) : Item :=
  if sf "venue" then
    if venueValue d ≠ "" then
      if it.itemType = "conferencePaper" then
        if ow || it.proceedingsTitle = "" then
          { it with proceedingsTitle := venueValue d } else it
      else if it.itemType = "bookSection" then
        if ow || it.bookTitle = "" then
          { it with bookTitle := venueValue d } else it
      else
        if ow || it.publicationTitle = "" then
          { it with publicationTitle := venueValue d } else it
    else it
  else it

/-- The open-access-URL block of `applyDataToItem` (item-utils.js:300–308). -/
def applyOpenAccess (d : SSData) (sf : String → Bool) (ow : Bool) (it : Item) : Item :=
  if sf "openAccessPdf" && d.openAccessPdfUrl ≠ "" then
    if ow || it.url = "" then { it with url := d.openAccessPdfUrl } else it
  else it

/-- Model of `ItemUtils.applyDataToItem` (item-utils.js:211–312): update the side-store
note, then conditionally write the exported bibliographic fields in source
order — each written only when its fetch flag is on, the catalog supplies a
non-empty value, and either `overwriteExisting` is set or the field is
currently empty. -/
def applyDataToItem (item : Item) (data : Option SSData) (sf : String → Bool)
    (ow : Bool) (now : String) : Item :=
  if item.isRegular = false then item
  else
    match data with
    | none => item
    | some d =>
      let it1 : Item := { item with sideStore := some (buildStoredData d sf now) }
      applyOpenAccess d sf ow (applyVenue d sf ow
        (applyDate d sf ow (applyAbstract d sf ow (applyDOI d sf ow it1))))

/-- The five exported bibliographic fields the merge policy governs. -/
inductive ExpField where
  | doi
  | abstract
  | date
  | venue
  | openAccess
deriving DecidableEq, Repr

/-- The current value of an exported field on an item; for the venue this is
the type-selected target field. -/
def getExp (it : Item) : ExpField → String
  | .doi => it.doi
  | .abstract => it.abstractNote
  | .date => it.date
  | .venue =>
    if it.itemType = "conferencePaper" then it.proceedingsTitle
    else if it.itemType = "bookSection" then it.bookTitle
    else it.publicationTitle
  | .openAccess => it.url

/-- The value the catalog supplies for an exported field (`""` = none). -/
def suppliedValue (d : SSData) : ExpField → String
  | .doi => d.doi
  | .abstract => d.abstract
  | .date => d.publicationDate
  | .venue => venueValue d
  | .openAccess => d.openAccessPdfUrl

/-- The preference key gating each exported field. -/
def flagOf : ExpField → String
  | .doi => "DOI"
  | .abstract => "abstract"
  | .date => "publicationDate"
  | .venue => "venue"
  | .openAccess => "openAccessPdf"

/-! ## C4 — classification of single-identifier requests -/

/-- C4: every single-identifier request is classified uniformly: HTTP 429
yields RateLimited; any other non-200 status, and any transport or JSON-parse
exception, yields NotFound — except that an exception whose message contains
`'429'` yields RateLimited; a 200 response with parseable JSON yields Found
with the parsed payload. -/
theorem makeRequest_classification {α : Type} (s : Nat) (b : Parsed α) (d : α)
    (msg : String) :
    makeRequest (NetResp.http 429 b) = ⟨none, true⟩
    ∧ (s ≠ 429 → s ≠ 200 → makeRequest (NetResp.http s b) = ⟨none, false⟩)
    ∧ makeRequest (NetResp.http 200 (Parsed.ok d)) = ⟨some d, false⟩
    ∧ (includes429 msg = false →
        makeRequest (NetResp.exn (α := α) msg) = ⟨none, false⟩
        ∧ makeRequest (NetResp.http 200 (Parsed.thrown (α := α) msg)) = ⟨none, false⟩)
    ∧ (includes429 msg = true →
        makeRequest (NetResp.exn (α := α) msg) = ⟨none, true⟩
        ∧ makeRequest (NetResp.http 200 (Parsed.thrown (α := α) msg)) = ⟨none, true⟩) := by
  refine ⟨rfl, fun h429 h200 => ?_, rfl, fun hmsg => ⟨?_, ?_⟩, fun hmsg => ⟨?_, ?_⟩⟩ <;>
    simp [makeRequest, *]

/-- Witness for `makeRequest_classification` at concrete inputs. -/
theorem makeRequest_classification_witness :
    makeRequest (NetResp.http 500 (Parsed.ok (0 : Nat))) = ⟨none, false⟩
    ∧ makeRequest (NetResp.exn (α := Nat) "Request timed out") = ⟨none, false⟩
    ∧ makeRequest (NetResp.exn (α := Nat) "HTTP 429 Too Many Requests") = ⟨none, true⟩ :=
  have h1 := makeRequest_classification (α := Nat) 500 (Parsed.ok 0) 0 "Request timed out"
  have h2 := makeRequest_classification (α := Nat) 500 (Parsed.ok 0) 0 "HTTP 429 Too Many Requests"
  ⟨h1.2.1 (by decide) (by decide), (h1.2.2.2.1 (by decide)).1, ((h2.2.2.2.2) (by decide)).1⟩

/-! ## C1 — retry entries at `maxRetries` -/

/-- C1 (refuted): the claim that an entry whose `retryCount` has reached
`maxRetries` is dropped during a drain is false on the code: `processRetryQueue`
re-inserts a rate-limited entry with `retryCount + 1` without consulting
`maxRetries` (api.js:312), so after exactly `maxRetries` consecutive
rate-limited outcomes the record is still in the queue, with
`retryCount = maxRetries`.  Only `addToRetryQueue` enforces the cap (second
conjunct). -/
theorem retry_entry_survives_max_retries :
    (drainStep (drainStep (drainStep (drainStep (drainStep
        ⟨[⟨1, 0⟩], 2000⟩ alwaysRateLimited) alwaysRateLimited) alwaysRateLimited)
        alwaysRateLimited) alwaysRateLimited).queue = [⟨1, maxRetries⟩]
    ∧ addToRetryQueue [] 1 maxRetries = [] := by
  decide

/-! ## C6 — evolution of the global backoff delay -/

/-- C6: across a drain iteration the global backoff delay is doubled (capped
at `maxRetryDelay` = 60000) exactly when the fetch outcome is rate-limited,
reset to the floor (2000) exactly when the outcome is found, left unchanged on
not-found; consequently it stays within `[2000, 60000]`. -/
theorem backoff_delay_evolution (st : RetryState) (fetch : Nat → Outcome Paper)
    (e : QEntry) (rest : List QEntry) (h : st.queue = e :: rest) :
    ((fetch e.itemId).rateLimited = true →
      (drainStep st fetch).retryDelay = min (st.retryDelay * 2) maxRetryDelay)
    ∧ ((fetch e.itemId).rateLimited = false → (fetch e.itemId).data.isSome = true →
      (drainStep st fetch).retryDelay = initialRetryDelay)
    ∧ ((fetch e.itemId).rateLimited = false → (fetch e.itemId).data = none →
      (drainStep st fetch).retryDelay = st.retryDelay)
    ∧ (initialRetryDelay ≤ st.retryDelay → st.retryDelay ≤ maxRetryDelay →
      initialRetryDelay ≤ (drainStep st fetch).retryDelay
      ∧ (drainStep st fetch).retryDelay ≤ maxRetryDelay) := by
  rcases hf : fetch e.itemId with ⟨dd, rl⟩
  simp only [drainStep, h, hf]
  cases rl <;> cases dd <;>
    simp [maxRetryDelay, initialRetryDelay] <;> omega

/-- Witness for `backoff_delay_evolution` at a concrete state. -/
theorem backoff_delay_evolution_witness :
    (drainStep ⟨[⟨1, 0⟩], 2000⟩ alwaysRateLimited).retryDelay
      = min (2000 * 2) maxRetryDelay
    ∧ initialRetryDelay ≤ (drainStep ⟨[⟨1, 0⟩], 2000⟩ alwaysRateLimited).retryDelay
    ∧ (drainStep ⟨[⟨1, 0⟩], 2000⟩ alwaysRateLimited).retryDelay ≤ maxRetryDelay :=
  have h := backoff_delay_evolution ⟨[⟨1, 0⟩], 2000⟩ alwaysRateLimited ⟨1, 0⟩ [] rfl
  have h4 := h.2.2.2 (by decide) (by decide)
  ⟨h.1 (by decide), h4.1, h4.2⟩

/-! ## C7 — no duplicate records in the retry queue -/

/-- C7: queue entries refer to pairwise-distinct record ids and both
operations preserve this: `addToRetryQueue` is a no-op for an already-queued
record (and otherwise appends a fresh id), and a drain iteration removes the
front entry before possibly re-inserting an entry for the same record. -/
theorem retry_queue_no_duplicates (q : List QEntry) (itemId retryCount : Nat)
    (st : RetryState) (fetch : Nat → Outcome Paper) :
    ((q.map QEntry.itemId).Nodup →
      ((addToRetryQueue q itemId retryCount).map QEntry.itemId).Nodup)
    ∧ ((q.any fun e => e.itemId = itemId) = true →
      addToRetryQueue q itemId retryCount = q)
    ∧ ((st.queue.map QEntry.itemId).Nodup →
      (((drainStep st fetch).queue).map QEntry.itemId).Nodup) := by
  refine ⟨fun hq => ?_, fun hin => ?_, fun hst => ?_⟩
  · unfold addToRetryQueue
    split_ifs with h1 h2
    · exact hq
    · exact hq
    · simp only [List.map_append, List.map_cons, List.map_nil]
      rw [List.nodup_append]
      refine ⟨hq, List.nodup_singleton _, ?_⟩
      intro x hx hx1
      simp only [List.mem_singleton] at hx1
      subst hx1
      rcases List.mem_map.mp hx with ⟨e, he, rfl⟩
      exact h2 (List.any_eq_true.mpr ⟨e, he, by simp⟩)
  · unfold addToRetryQueue
    split_ifs <;> simp_all
  · rcases hqe : st.queue with _ | ⟨e, rest⟩
    · simp only [drainStep, hqe]
      rw [hqe] at hst
      exact hst
    · rw [hqe] at hst
      simp only [List.map_cons, List.nodup_cons] at hst
      simp only [drainStep, hqe]
      split_ifs <;> simp_all

/-- Witness for `retry_queue_no_duplicates` at concrete inputs. -/
theorem retry_queue_no_duplicates_witness :
    ((addToRetryQueue [⟨1, 0⟩] 1 0).map QEntry.itemId).Nodup
    ∧ addToRetryQueue [⟨1, 0⟩] 1 0 = [⟨1, 0⟩]
    ∧ (((drainStep ⟨[⟨1, 0⟩, ⟨2, 0⟩], 2000⟩ alwaysRateLimited).queue).map
        QEntry.itemId).Nodup :=
  have h := retry_queue_no_duplicates [⟨1, 0⟩] 1 0 ⟨[⟨1, 0⟩, ⟨2, 0⟩], 2000⟩
    alwaysRateLimited
  ⟨h.1 (by decide), h.2.1 (by decide), h.2.2 (by decide)⟩

/-! ## Unfolding lemmas for `batchFetchGo` -/

theorem batchFetchGo_nil (net : Nat → NetResp (List Row)) (k : Nat) :
    batchFetchGo net k [] = ([], false, []) := by
  rw [batchFetchGo]

theorem batchFetchGo_429 (net : Nat → NetResp (List Row)) (k : Nat)
    (ids : List String) (b : Parsed (List Row)) (hne : ids ≠ [])
    (hnet : net k = .http 429 b) :
    batchFetchGo net k ids = ([], true, [ids.take batchSize]) := by
  cases ids with
  | nil => exact absurd rfl hne
  | cons a l => rw [batchFetchGo, hnet]; rfl

theorem batchFetchGo_ok (net : Nat → NetResp (List Row)) (k : Nat)
    (ids : List String) (rows : List Row) (hne : ids ≠ [])
    (hnet : net k = .http 200 (.ok rows)) :
    batchFetchGo net k ids =
      (rows ++ (batchFetchGo net (k + 1) (ids.drop batchSize)).1,
        (batchFetchGo net (k + 1) (ids.drop batchSize)).2.1,
        ids.take batchSize :: (batchFetchGo net (k + 1) (ids.drop batchSize)).2.2) := by
  cases ids with
  | nil => exact absurd rfl hne
  | cons a l => rw [batchFetchGo, hnet]; rfl

theorem batchFetchGo_failStatus (net : Nat → NetResp (List Row)) (k : Nat)
    (ids : List String) (s : Nat) (b : Parsed (List Row)) (hne : ids ≠ [])
    (hnet : net k = .http s b) (h429 : s ≠ 429) (h200 : s ≠ 200) :
    batchFetchGo net k ids =
      ((batchFetchGo net (k + 1) (ids.drop batchSize)).1,
        (batchFetchGo net (k + 1) (ids.drop batchSize)).2.1,
        ids.take batchSize :: (batchFetchGo net (k + 1) (ids.drop batchSize)).2.2) := by
  cases ids with
  | nil => exact absurd rfl hne
  | cons a l =>
    rw [batchFetchGo, hnet]
    simp [h429, h200]

/-! ## C9 — chunking of the batch lookup -/

/-- C9: the batch lookup splits its ids into consecutive chunks of at most
`batchSize` = 500: with 600 ids and successful chunk responses exactly two
chunk requests are issued (the first 500 ids, then the remaining 100); a
rate-limited chunk stops the remaining chunks while the results of earlier
chunks are kept and returned with the rate-limited flag. -/
theorem batch_chunking (ids : List String) (rows0 rows1 : List Row)
    (b : Parsed (List Row)) (h : ids.length = 600) :
    (batchFetch ids
        (fun k => if k = 0 then .http 200 (.ok rows0) else .http 200 (.ok rows1)))
      = (rows0 ++ rows1, false, [ids.take batchSize, ids.drop batchSize])
    ∧ (ids.take batchSize).length = 500
    ∧ (ids.drop batchSize).length = 100
    ∧ (batchFetch ids
        (fun k => if k = 0 then .http 200 (.ok rows0) else .http 429 b))
      = (rows0, true, [ids.take batchSize, ids.drop batchSize])
    ∧ (batchFetch ids (fun _ => .http 429 b)) = ([], true, [ids.take batchSize]) := by
  have hne : ids ≠ [] := by
    intro hnil
    rw [hnil] at h
    simp at h
  have hlen1 : (ids.drop batchSize).length = 100 := by
    simp [List.length_drop, h, batchSize]
  have hne1 : ids.drop batchSize ≠ [] := by
    intro hnil
    rw [hnil] at hlen1
    simp at hlen1
  have hdrop2 : (ids.drop batchSize).drop batchSize = [] := by
    apply List.drop_eq_nil_of_le
    rw [hlen1]
    norm_num [batchSize]
  have htake1 : (ids.drop batchSize).take batchSize = ids.drop batchSize := by
    apply List.take_of_length_le
    rw [hlen1]
    norm_num [batchSize]
  refine ⟨?_, ?_, hlen1, ?_, ?_⟩
  · rw [batchFetch, batchFetchGo_ok _ 0 ids rows0 hne (by simp),
      batchFetchGo_ok _ 1 (ids.drop batchSize) rows1 hne1 (by simp),
      hdrop2, batchFetchGo_nil, htake1]
    simp
  · simp [List.length_take, h, batchSize]
  · rw [batchFetch, batchFetchGo_ok _ 0 ids rows0 hne (by simp),
      batchFetchGo_429 _ 1 (ids.drop batchSize) b hne1 (by simp), htake1]
    simp
  · rw [batchFetch, batchFetchGo_429 _ 0 ids b hne rfl]

/-- Witness for `batch_chunking` at a concrete id list. -/
theorem batch_chunking_witness :
    (batchFetch (List.replicate 600 "x")
        (fun k => if k = 0 then .http 200 (.ok []) else .http 200 (.ok [])))
      = ([], false,
          [(List.replicate 600 "x").take batchSize,
            (List.replicate 600 "x").drop batchSize])
    ∧ ((List.replicate 600 "x").take batchSize).length = 500
    ∧ ((List.replicate 600 "x").drop batchSize).length = 100 :=
  have h := batch_chunking (List.replicate 600 "x") [] [] (.ok [])
    (by rw [List.length_replicate])
  ⟨by have h1 := h.1; rwa [List.nil_append] at h1, h.2.1, h.2.2.1⟩

/-! ## C2 — positional alignment of batch results -/

/-- C2 (refuted): batch results are *not* positionally aligned to the input
ids when a chunk fails with a non-429, non-200 status and later chunks still
run: for 501 ids where the first chunk request fails with HTTP 500 and the
second succeeds, the returned result list is exactly the single row the
service reported for the 501st id — so it sits at position 0, where the
caller (`batchFetchByScholarIds`, plugin.js:374–380) positionally attributes
it to the 1st id. -/
theorem batch_misalignment :
    batchFetch (List.replicate 500 "a" ++ ["b"])
        (fun k => if k = 0 then .http 500 (.ok []) else
          .http 200 (.ok [some ⟨"B", none⟩]))
      = ([some ⟨"B", none⟩], false, [List.replicate 500 "a", ["b"]])
    ∧ (List.replicate 500 "a" ++ ["b"]).length = 501 := by
  have hrep : (List.replicate 500 "a").length = 500 := by
    rw [List.length_replicate]
  have hlen : (List.replicate 500 "a" ++ ["b"]).length = 501 := by
    rw [List.length_append, List.length_replicate]
    decide
  have hne : List.replicate 500 "a" ++ ["b"] ≠ [] := by
    apply List.ne_nil_of_length_pos
    rw [hlen]
    norm_num
  have htake : (List.replicate 500 "a" ++ ["b"]).take batchSize
      = List.replicate 500 "a" := by
    rw [batchSize, List.take_left' hrep]
  have hdrop : (List.replicate 500 "a" ++ ["b"]).drop batchSize = ["b"] := by
    rw [batchSize, List.drop_left' hrep]
  have hdropb : (["b"] : List String).drop batchSize = [] := by
    rw [batchSize]
    decide
  have htakeb : (["b"] : List String).take batchSize = ["b"] := by
    rw [batchSize]
    decide
  constructor
  · rw [batchFetch,
      batchFetchGo_failStatus _ 0 _ 500 (.ok []) hne (by simp) (by simp) (by simp),
      hdrop, htake,
      batchFetchGo_ok _ 1 ["b"] [some ⟨"B", none⟩] (by simp) (by simp),
      hdropb, batchFetchGo_nil, htakeb, List.append_nil]
  · exact hlen

/-! ## C5 — exact title matching -/

/-- When every candidate has a (possibly empty) title, the matching loop
terminates normally and returns the first exact normalized match. -/
theorem findTitleMatch_eq_firstExactMatch (query : String) (papers : List Paper)
    (h : ∀ p ∈ papers, p.title ≠ none) :
    findTitleMatch query papers = .ok (firstExactMatch query papers) := by
  induction papers with
  | nil => rfl
  | cons p ps ih =>
    rcases hp : p.title with _ | t
    · exact absurd hp (h p (List.mem_cons_self p ps))
    · simp only [findTitleMatch, firstExactMatch, List.find?, hp]
      rcases hmatch : t ≠ "" && normalizeTitle t == normalizeTitle query with _ | _
      · simpa [hmatch, firstExactMatch] using
          ih fun q hq => h q (List.mem_cons_of_mem p hq)
      · simp [hmatch]

/-- C5 (refuted as stated): the claimed normalization ("strips every character
that is not alphanumeric or whitespace") disagrees with the code on the
underscore, which the JS `\w` class retains; and a candidate whose normalized
title equals the normalized query is skipped when its raw title is the empty
string (JS truthiness guard), rather than returned as Found. -/
theorem title_normalization_counterexample :
    normalizeTitle "a_b" ≠ normalizeTitleClaimed "a_b"
    ∧ normalizeTitle "a_b" = "a_b"
    ∧ fetchByTitle (NetResp.http 200 (Parsed.ok (some [⟨"p1", some ""⟩]))) "!"
      = ⟨none, false⟩
    ∧ normalizeTitle "" = normalizeTitle "!" := by
  decide

/-- C5 (amended): title search normalizes with lower-casing, stripping of
every character that is neither alphanumeric, underscore, nor whitespace,
whitespace collapsing and trimming; among candidates that all carry a title,
the first candidate with a *non-empty* title whose normalization equals the
query's normalization is returned as Found, and if there is none the outcome
is NotFound — no fuzzy matching.  `"Deep Learning, 2016!"` still normalizes
equal to `"deep learning 2016"`. -/
theorem title_search_exact_match (query : String) (papers : List Paper)
    (h : ∀ p ∈ papers, p.title ≠ none) :
    fetchByTitle (NetResp.http 200 (Parsed.ok (some papers))) query
      = (match firstExactMatch query papers with
          | some p => ⟨some p, false⟩
          | none => ⟨none, false⟩)
    ∧ normalizeTitle "Deep Learning, 2016!" = normalizeTitle "deep learning 2016" := by
  refine ⟨?_, by decide⟩
  simp only [fetchByTitle]
  rcases papers with _ | ⟨p, ps⟩
  · rfl
  · rw [if_neg (by norm_num), if_neg (by norm_num), if_neg (by simp),
      findTitleMatch_eq_firstExactMatch query (p :: ps) h]
    rcases firstExactMatch query (p :: ps) with _ | q <;> rfl

/-- Witness for `title_search_exact_match` at a concrete search response. -/
theorem title_search_exact_match_witness :
    fetchByTitle (NetResp.http 200 (Parsed.ok (some
        [⟨"p0", some "Other Title"⟩, ⟨"p1", some "deep learning 2016"⟩])))
      "Deep Learning, 2016!"
      = (match firstExactMatch "Deep Learning, 2016!"
            [⟨"p0", some "Other Title"⟩, ⟨"p1", some "deep learning 2016"⟩] with
          | some p => ⟨some p, false⟩
          | none => ⟨none, false⟩) :=
  (title_search_exact_match "Deep Learning, 2016!"
    [⟨"p0", some "Other Title"⟩, ⟨"p1", some "deep learning 2016"⟩]
    (by decide)).1

/-! ## C10 — null-titled candidates in the search response -/

/-- C10 (refuted as stated): a search response that contains a null-titled
candidate does *not* always yield NotFound — when an earlier candidate is an
exact match the loop returns Found before ever normalizing the null title. -/
theorem null_title_counterexample :
    fetchByTitle (NetResp.http 200 (Parsed.ok (some
        [⟨"p1", some "Deep Learning"⟩, ⟨"p2", none⟩]))) "Deep Learning"
      = ⟨some ⟨"p1", some "Deep Learning"⟩, false⟩ := by
  decide

/-- If every candidate before the null-titled one carries a title and fails
the match guard, the loop aborts with the `TypeError` message. -/
theorem findTitleMatch_error_of_null (query : String) (pre post : List Paper)
    (p : Paper) (hp : p.title = none)
    (hpre : ∀ q ∈ pre, q.title ≠ none
      ∧ (q.title.getD "" = ""
        ∨ normalizeTitle (q.title.getD "") ≠ normalizeTitle query)) :
    findTitleMatch query (pre ++ p :: post) = .error nullTitleErrMsg := by
  induction pre with
  | nil => simp [findTitleMatch, hp]
  | cons q qs ih =>
    obtain ⟨hqt, hqm⟩ := hpre q (List.mem_cons_self q qs)
    rcases hq : q.title with _ | t
    · exact absurd hq hqt
    · rw [hq] at hqm
      simp only [Option.getD_some] at hqm
      have hguard : (t ≠ "" && normalizeTitle t == normalizeTitle query) = false := by
        rcases hqm with h1 | h2
        · simp [h1]
        · simp [h2]
      simp only [List.cons_append, findTitleMatch, hq, hguard, Bool.false_eq_true,
        if_false]
      exact ih fun r hr => hpre r (List.mem_cons_of_mem q hr)

/-- C10 (amended): for every search response in which the matching loop
reaches a candidate with a null/missing title (every earlier candidate has a
title and is not an exact match), normalizing that title throws; the
exception is caught inside the search and — its message containing no
`"429"` — the call returns NotFound (`{data: null, rateLimited: false}`)
rather than propagating the error or reporting RateLimited. -/
theorem null_title_yields_notfound (query : String) (pre post : List Paper)
    (p : Paper) (hp : p.title = none)
    (hpre : ∀ q ∈ pre, q.title ≠ none
      ∧ (q.title.getD "" = ""
        ∨ normalizeTitle (q.title.getD "") ≠ normalizeTitle query)) :
    fetchByTitle (NetResp.http 200 (Parsed.ok (some (pre ++ p :: post)))) query
      = ⟨none, false⟩
    ∧ includes429 nullTitleErrMsg = false := by
  refine ⟨?_, by decide⟩
  have herr := findTitleMatch_error_of_null query pre post p hp hpre
  have hne : (pre ++ p :: post).isEmpty = false := by
    rcases pre with _ | ⟨q, qs⟩ <;> rfl
  simp [fetchByTitle, hne, herr, show includes429 nullTitleErrMsg = false by decide]

/-- Witness for `null_title_yields_notfound` at a concrete search response. -/
theorem null_title_yields_notfound_witness :
    fetchByTitle (NetResp.http 200 (Parsed.ok (some
        ([⟨"p0", some "Other Title"⟩] ++ ⟨"p2", none⟩ :: [])))) "deep learning"
      = ⟨none, false⟩
    ∧ includes429 nullTitleErrMsg = false :=
  null_title_yields_notfound "deep learning" [⟨"p0", some "Other Title"⟩] []
    ⟨"p2", none⟩ rfl (by decide)

/-! ## C3 — identifier priority and short-circuiting -/

/-- The two early returns of a lookup step coincide with a single test of
`isHit`. -/
theorem tryLookup_eq (net : Net) (req : Req) (tr : List Req)
    (next : List Req → Outcome Paper × List Req) :
    tryLookup net req tr next =
      if isHit (makeRequest (net.lookup req))
      then (makeRequest (net.lookup req), tr ++ [req])
      else next (tr ++ [req]) := by
  unfold tryLookup isHit
  rcases makeRequest (net.lookup req) with ⟨dd, rl⟩
  cases rl <;> cases dd <;> simp

/-- The title block agrees with `specTail` after an empty candidate tail. -/
theorem fetchStepTitle_bridge (net : Net) (searchMode : String) (item : Item)
    (acc : List Req) :
    fetchStepTitle net searchMode item acc
      = specTail net searchMode item (runCandidates net acc []) := by
  unfold fetchStepTitle specTail runCandidates
  by_cases hm : searchMode = "title" <;> by_cases ht : item.title = "" <;>
    simp [isHit, hm, ht]

/-- The stored-catalog-id block agrees with `specTail` after folding its
candidate (if any). -/
theorem fetchStepScholar_bridge (net : Net) (searchMode : String) (item : Item)
    (acc : List Req) :
    fetchStepScholar net searchMode item acc
      = specTail net searchMode item
          (runCandidates net acc (((getScholarId item).map Req.scholar).toList)) := by
  unfold fetchStepScholar
  cases hs : getScholarId item with
  | none => simpa using fetchStepTitle_bridge net searchMode item acc
  | some v =>
    show tryLookup net (Req.scholar v) acc (fetchStepTitle net searchMode item) = _
    rw [tryLookup_eq]
    by_cases hh : isHit (makeRequest (net.lookup (Req.scholar v)))
    · simp [runCandidates, hh, specTail]
    · simp only [Option.map_some, Option.toList_some, runCandidates, hh,
        Bool.false_eq_true, if_false]
      exact fetchStepTitle_bridge net searchMode item (acc ++ [Req.scholar v])

/-- The PMID block agrees with `specTail` after folding its candidates. -/
theorem fetchStepPmid_bridge (net : Net) (searchMode : String) (item : Item)
    (acc : List Req) :
    fetchStepPmid net searchMode item acc
      = specTail net searchMode item
          (runCandidates net acc (((getPMID item).map Req.pmid).toList
            ++ ((getScholarId item).map Req.scholar).toList)) := by
  unfold fetchStepPmid
  cases hp : getPMID item with
  | none => simpa using fetchStepScholar_bridge net searchMode item acc
  | some v =>
    show tryLookup net (Req.pmid v) acc (fetchStepScholar net searchMode item) = _
    rw [tryLookup_eq]
    by_cases hh : isHit (makeRequest (net.lookup (Req.pmid v)))
    · simp [runCandidates, hh, specTail]
    · simp only [Option.map_some, Option.toList_some, List.cons_append,
        List.nil_append, runCandidates, hh, Bool.false_eq_true, if_false]
      exact fetchStepScholar_bridge net searchMode item (acc ++ [Req.pmid v])

/-- The arXiv block agrees with `specTail` after folding its candidates. -/
theorem fetchStepArxiv_bridge (net : Net) (searchMode : String) (item : Item)
    (acc : List Req) :
    fetchStepArxiv net searchMode item acc
      = specTail net searchMode item
          (runCandidates net acc (((getArxivId item).map Req.arxiv).toList
            ++ (((getPMID item).map Req.pmid).toList
              ++ ((getScholarId item).map Req.scholar).toList))) := by
  unfold fetchStepArxiv
  cases ha : getArxivId item with
  | none => simpa using fetchStepPmid_bridge net searchMode item acc
  | some v =>
    show tryLookup net (Req.arxiv v) acc (fetchStepPmid net searchMode item) = _
    rw [tryLookup_eq]
    by_cases hh : isHit (makeRequest (net.lookup (Req.arxiv v)))
    · simp [runCandidates, hh, specTail]
    · simp only [Option.map_some, Option.toList_some, List.cons_append,
        List.nil_append, runCandidates, hh, Bool.false_eq_true, if_false]
      exact fetchStepPmid_bridge net searchMode item (acc ++ [Req.arxiv v])

/-- C3: for every regular record, the single-record fetch is exactly the
spec's strategy — try the present identifiers in the fixed priority order
DOI, arXiv id (Extra-field pattern first, else URL pattern, inside
`getArxivId`), PMID, stored catalog id, returning at the first lookup whose
outcome is Found or RateLimited without issuing the later candidates (the
request traces coincide), and issue a title search only when title-search
mode is enabled and every present identifier came back NotFound. -/
theorem fetch_priority_order (net : Net) (searchMode : String) (item : Item)
    (h : item.isRegular = true) :
    fetchDataForItem net searchMode item = fetchForRecordSpec net searchMode item := by
  unfold fetchDataForItem fetchForRecordSpec resolveCandidates
  rw [h]
  simp only [Bool.true_eq_false, if_false]
  cases hd : getDOI item with
  | none => simpa using fetchStepArxiv_bridge net searchMode item []
  | some v =>
    show tryLookup net (Req.doi v) [] (fetchStepArxiv net searchMode item) = _
    rw [tryLookup_eq]
    by_cases hh : isHit (makeRequest (net.lookup (Req.doi v)))
    · simp [runCandidates, hh, specTail]
    · simp only [Option.map_some, Option.toList_some, List.cons_append,
        List.nil_append, runCandidates, hh, Bool.false_eq_true, if_false]
      exact fetchStepArxiv_bridge net searchMode item ([] ++ [Req.doi v])

/-- Witness for `fetch_priority_order` at a concrete record and network. -/
theorem fetch_priority_order_witness :
    fetchDataForItem
        ⟨fun _ => NetResp.http 200 (Parsed.ok ⟨"P", none⟩),
          fun _ => NetResp.http 200 (Parsed.ok none)⟩ "title"
        ⟨true, "journalArticle", "Some Title", "10.1000/x", "", "PMID: 42", "",
          "", "", "", "", none⟩
      = fetchForRecordSpec
        ⟨fun _ => NetResp.http 200 (Parsed.ok ⟨"P", none⟩),
          fun _ => NetResp.http 200 (Parsed.ok none)⟩ "title"
        ⟨true, "journalArticle", "Some Title", "10.1000/x", "", "PMID: 42", "",
          "", "", "", "", none⟩ :=
  fetch_priority_order
    ⟨fun _ => NetResp.http 200 (Parsed.ok ⟨"P", none⟩),
      fun _ => NetResp.http 200 (Parsed.ok none)⟩ "title"
    ⟨true, "journalArticle", "Some Title", "10.1000/x", "", "PMID: 42", "",
      "", "", "", "", none⟩ rfl


/-! ## C8 — frame and value lemmas for the field merger -/

section MergeLemmas

variable (d : SSData) (sf : String → Bool) (ow : Bool) (it : Item)

theorem applyDOI_itemType : (applyDOI d sf ow it).itemType = it.itemType := by
  unfold applyDOI; split_ifs <;> rfl

theorem applyDOI_abstractNote : (applyDOI d sf ow it).abstractNote = it.abstractNote := by
  unfold applyDOI; split_ifs <;> rfl

theorem applyDOI_date : (applyDOI d sf ow it).date = it.date := by
  unfold applyDOI; split_ifs <;> rfl

theorem applyDOI_publicationTitle :
    (applyDOI d sf ow it).publicationTitle = it.publicationTitle := by
  unfold applyDOI; split_ifs <;> rfl

theorem applyDOI_proceedingsTitle :
    (applyDOI d sf ow it).proceedingsTitle = it.proceedingsTitle := by
  unfold applyDOI; split_ifs <;> rfl

theorem applyDOI_bookTitle : (applyDOI d sf ow it).bookTitle = it.bookTitle := by
  unfold applyDOI; split_ifs <;> rfl

theorem applyDOI_url : (applyDOI d sf ow it).url = it.url := by
  unfold applyDOI; split_ifs <;> rfl

theorem applyDOI_doi :
    (applyDOI d sf ow it).doi =
      if sf "DOI" && d.doi ≠ "" then
        (if ow || it.doi = "" then d.doi else it.doi)
      else it.doi := by
  unfold applyDOI; split_ifs <;> rfl

theorem applyAbstract_itemType :
    (applyAbstract d sf ow it).itemType = it.itemType := by
  unfold applyAbstract; split_ifs <;> rfl

theorem applyAbstract_doi : (applyAbstract d sf ow it).doi = it.doi := by
  unfold applyAbstract; split_ifs <;> rfl

theorem applyAbstract_date : (applyAbstract d sf ow it).date = it.date := by
  unfold applyAbstract; split_ifs <;> rfl

theorem applyAbstract_publicationTitle :
    (applyAbstract d sf ow it).publicationTitle = it.publicationTitle := by
  unfold applyAbstract; split_ifs <;> rfl

theorem applyAbstract_proceedingsTitle :
    (applyAbstract d sf ow it).proceedingsTitle = it.proceedingsTitle := by
  unfold applyAbstract; split_ifs <;> rfl

theorem applyAbstract_bookTitle :
    (applyAbstract d sf ow it).bookTitle = it.bookTitle := by
  unfold applyAbstract; split_ifs <;> rfl

theorem applyAbstract_url : (applyAbstract d sf ow it).url = it.url := by
  unfold applyAbstract; split_ifs <;> rfl

theorem applyAbstract_abstractNote :
    (applyAbstract d sf ow it).abstractNote =
      if sf "abstract" && d.abstract ≠ "" then
        (if ow || it.abstractNote = "" then d.abstract else it.abstractNote)
      else it.abstractNote := by
  unfold applyAbstract; split_ifs <;> rfl

theorem applyDate_itemType : (applyDate d sf ow it).itemType = it.itemType := by
  unfold applyDate; split_ifs <;> rfl

theorem applyDate_doi : (applyDate d sf ow it).doi = it.doi := by
  unfold applyDate; split_ifs <;> rfl

theorem applyDate_abstractNote :
    (applyDate d sf ow it).abstractNote = it.abstractNote := by
  unfold applyDate; split_ifs <;> rfl

theorem applyDate_publicationTitle :
    (applyDate d sf ow it).publicationTitle = it.publicationTitle := by
  unfold applyDate; split_ifs <;> rfl

theorem applyDate_proceedingsTitle :
    (applyDate d sf ow it).proceedingsTitle = it.proceedingsTitle := by
  unfold applyDate; split_ifs <;> rfl

theorem applyDate_bookTitle : (applyDate d sf ow it).bookTitle = it.bookTitle := by
  unfold applyDate; split_ifs <;> rfl

theorem applyDate_url : (applyDate d sf ow it).url = it.url := by
  unfold applyDate; split_ifs <;> rfl

theorem applyDate_date :
    (applyDate d sf ow it).date =
      if sf "publicationDate" && d.publicationDate ≠ "" then
        (if ow || it.date = "" then d.publicationDate else it.date)
      else it.date := by
  unfold applyDate; split_ifs <;> rfl

theorem applyVenue_itemType : (applyVenue d sf ow it).itemType = it.itemType := by
  unfold applyVenue; split_ifs <;> rfl

theorem applyVenue_doi : (applyVenue d sf ow it).doi = it.doi := by
  unfold applyVenue; split_ifs <;> rfl

theorem applyVenue_abstractNote :
    (applyVenue d sf ow it).abstractNote = it.abstractNote := by
  unfold applyVenue; split_ifs <;> rfl

theorem applyVenue_date : (applyVenue d sf ow it).date = it.date := by
  unfold applyVenue; split_ifs <;> rfl

theorem applyVenue_url : (applyVenue d sf ow it).url = it.url := by
  unfold applyVenue; split_ifs <;> rfl

theorem applyOpenAccess_itemType :
    (applyOpenAccess d sf ow it).itemType = it.itemType := by
  unfold applyOpenAccess; split_ifs <;> rfl

theorem applyOpenAccess_doi : (applyOpenAccess d sf ow it).doi = it.doi := by
  unfold applyOpenAccess; split_ifs <;> rfl

theorem applyOpenAccess_abstractNote :
    (applyOpenAccess d sf ow it).abstractNote = it.abstractNote := by
  unfold applyOpenAccess; split_ifs <;> rfl

theorem applyOpenAccess_date : (applyOpenAccess d sf ow it).date = it.date := by
  unfold applyOpenAccess; split_ifs <;> rfl

theorem applyOpenAccess_publicationTitle :
    (applyOpenAccess d sf ow it).publicationTitle = it.publicationTitle := by
  unfold applyOpenAccess; split_ifs <;> rfl

theorem applyOpenAccess_proceedingsTitle :
    (applyOpenAccess d sf ow it).proceedingsTitle = it.proceedingsTitle := by
  unfold applyOpenAccess; split_ifs <;> rfl

theorem applyOpenAccess_bookTitle :
    (applyOpenAccess d sf ow it).bookTitle = it.bookTitle := by
  unfold applyOpenAccess; split_ifs <;> rfl

theorem applyOpenAccess_url :
    (applyOpenAccess d sf ow it).url =
      if sf "openAccessPdf" && d.openAccessPdfUrl ≠ "" then
        (if ow || it.url = "" then d.openAccessPdfUrl else it.url)
      else it.url := by
  unfold applyOpenAccess; split_ifs <;> rfl

end MergeLemmas

/-- The projection `getExp · .venue` only depends on the item type and the three venue
target fields. -/
theorem getExp_venue_congr (it it2 : Item) (hty : it2.itemType = it.itemType)
    (hp : it2.publicationTitle = it.publicationTitle)
    (hq : it2.proceedingsTitle = it.proceedingsTitle)
    (hb : it2.bookTitle = it.bookTitle) :
    getExp it2 .venue = getExp it .venue := by
  unfold getExp
  rw [hty, hp, hq, hb]

/-- The venue block writes exactly the type-selected venue target field,
following the overwrite policy. -/
theorem applyVenue_getVenue (d : SSData) (sf : String → Bool) (ow : Bool)
    (it : Item) :
    getExp (applyVenue d sf ow it) .venue =
      if sf "venue" && venueValue d ≠ "" then
        (if ow || getExp it .venue = "" then venueValue d else getExp it .venue)
      else getExp it .venue := by
  unfold applyVenue getExp
  split_ifs <;> simp_all


/-- C8: for each exported bibliographic field (DOI, abstract, date, venue,
open-access URL) whose fetch flag is enabled, `applyDataToItem` leaves a
non-empty existing value unchanged when `overwriteExisting` is false, sets the
field to the supplied catalog value whenever `overwriteExisting` is true and
the catalog supplies a non-empty one, and never clears a non-empty field. -/
theorem field_merge_policy (item : Item) (d : SSData) (sf : String → Bool)
    (ow : Bool) (now : String) (f : ExpField) (hreg : item.isRegular = true)
    (hflag : sf (flagOf f) = true) :
    (ow = false → getExp item f ≠ "" →
      getExp (applyDataToItem item (some d) sf ow now) f = getExp item f)
    ∧ (ow = true → suppliedValue d f ≠ "" →
      getExp (applyDataToItem item (some d) sf ow now) f = suppliedValue d f)
    ∧ (getExp item f ≠ "" → getExp (applyDataToItem item (some d) sf ow now) f ≠ "") := by
  have happ : applyDataToItem item (some d) sf ow now
      = applyOpenAccess d sf ow (applyVenue d sf ow (applyDate d sf ow
          (applyAbstract d sf ow (applyDOI d sf ow
            { item with sideStore := some (buildStoredData d sf now) })))) := by
    unfold applyDataToItem
    rw [hreg]
    rfl
  rw [happ]
  cases f with
  | doi =>
    simp only [flagOf] at hflag
    simp only [getExp, suppliedValue]
    rw [applyOpenAccess_doi, applyVenue_doi, applyDate_doi, applyAbstract_doi,
      applyDOI_doi]
    refine ⟨fun how hne => ?_, fun how hsup => ?_, fun hne => ?_⟩ <;>
      split_ifs <;> simp_all
  | abstract =>
    simp only [flagOf] at hflag
    simp only [getExp, suppliedValue]
    rw [applyOpenAccess_abstractNote, applyVenue_abstractNote,
      applyDate_abstractNote, applyAbstract_abstractNote]
    rw [applyDOI_abstractNote]
    refine ⟨fun how hne => ?_, fun how hsup => ?_, fun hne => ?_⟩ <;>
      split_ifs <;> simp_all
  | date =>
    simp only [flagOf] at hflag
    simp only [getExp, suppliedValue]
    rw [applyOpenAccess_date, applyVenue_date, applyDate_date]
    rw [applyAbstract_date, applyDOI_date]
    refine ⟨fun how hne => ?_, fun how hsup => ?_, fun hne => ?_⟩ <;>
      split_ifs <;> simp_all
  | openAccess =>
    simp only [flagOf] at hflag
    simp only [getExp, suppliedValue]
    rw [applyOpenAccess_url]
    rw [applyVenue_url, applyDate_url, applyAbstract_url, applyDOI_url]
    refine ⟨fun how hne => ?_, fun how hsup => ?_, fun hne => ?_⟩ <;>
      split_ifs <;> simp_all
  | venue =>
    simp only [flagOf] at hflag
    simp only [suppliedValue]
    have hOA : getExp (applyOpenAccess d sf ow (applyVenue d sf ow (applyDate d sf ow
          (applyAbstract d sf ow (applyDOI d sf ow
            { item with sideStore := some (buildStoredData d sf now) }))))) ExpField.venue
        = getExp (applyVenue d sf ow (applyDate d sf ow
          (applyAbstract d sf ow (applyDOI d sf ow
            { item with sideStore := some (buildStoredData d sf now) })))) ExpField.venue :=
      getExp_venue_congr _ _ (applyOpenAccess_itemType _ _ _ _)
        (applyOpenAccess_publicationTitle _ _ _ _)
        (applyOpenAccess_proceedingsTitle _ _ _ _)
        (applyOpenAccess_bookTitle _ _ _ _)
    have hW : getExp (applyDate d sf ow (applyAbstract d sf ow (applyDOI d sf ow
          { item with sideStore := some (buildStoredData d sf now) }))) ExpField.venue
        = getExp item ExpField.venue := by
      have h3 := getExp_venue_congr
        (applyAbstract d sf ow (applyDOI d sf ow
          { item with sideStore := some (buildStoredData d sf now) }))
        (applyDate d sf ow (applyAbstract d sf ow (applyDOI d sf ow
          { item with sideStore := some (buildStoredData d sf now) })))
        (applyDate_itemType _ _ _ _) (applyDate_publicationTitle _ _ _ _)
        (applyDate_proceedingsTitle _ _ _ _) (applyDate_bookTitle _ _ _ _)
      have h2 := getExp_venue_congr
        (applyDOI d sf ow { item with sideStore := some (buildStoredData d sf now) })
        (applyAbstract d sf ow (applyDOI d sf ow
          { item with sideStore := some (buildStoredData d sf now) }))
        (applyAbstract_itemType _ _ _ _) (applyAbstract_publicationTitle _ _ _ _)
        (applyAbstract_proceedingsTitle _ _ _ _) (applyAbstract_bookTitle _ _ _ _)
      have h1 := getExp_venue_congr
        { item with sideStore := some (buildStoredData d sf now) }
        (applyDOI d sf ow { item with sideStore := some (buildStoredData d sf now) })
        (applyDOI_itemType _ _ _ _) (applyDOI_publicationTitle _ _ _ _)
        (applyDOI_proceedingsTitle _ _ _ _) (applyDOI_bookTitle _ _ _ _)
      have h0 : getExp { item with sideStore := some (buildStoredData d sf now) }
          ExpField.venue = getExp item ExpField.venue := rfl
      rw [h3, h2, h1, h0]
    rw [hOA, applyVenue_getVenue, hW]
    refine ⟨fun how hne => ?_, fun how hsup => ?_, fun hne => ?_⟩ <;>
      split_ifs <;> simp_all

/-- Witness for `field_merge_policy` at a concrete item and catalog result. -/
theorem field_merge_policy_witness :
    getExp (applyDataToItem
        ⟨true, "journalArticle", "T", "10.1/old", "", "", "", "", "", "", "", none⟩
        (some ⟨"P", none, none, none, "10.1/new", "", "", "", "", "", "", []⟩)
        (fun _ => true) false "2026-01-01") ExpField.doi
      = getExp ⟨true, "journalArticle", "T", "10.1/old", "", "", "", "", "", "", "",
          none⟩ ExpField.doi
    ∧ getExp (applyDataToItem
        ⟨true, "journalArticle", "T", "10.1/old", "", "", "", "", "", "", "", none⟩
        (some ⟨"P", none, none, none, "10.1/new", "", "", "", "", "", "", []⟩)
        (fun _ => true) true "2026-01-01") ExpField.doi
      = suppliedValue ⟨"P", none, none, none, "10.1/new", "", "", "", "", "", "", []⟩
          ExpField.doi :=
  have h1 := field_merge_policy
    ⟨true, "journalArticle", "T", "10.1/old", "", "", "", "", "", "", "", none⟩
    ⟨"P", none, none, none, "10.1/new", "", "", "", "", "", "", []⟩
    (fun _ => true) false "2026-01-01" ExpField.doi rfl rfl
  have h2 := field_merge_policy
    ⟨true, "journalArticle", "T", "10.1/old", "", "", "", "", "", "", "", none⟩
    ⟨"P", none, none, none, "10.1/new", "", "", "", "", "", "", []⟩
    (fun _ => true) true "2026-01-01" ExpField.doi rfl rfl
  ⟨h1.1 rfl (by decide), h2.2.1 rfl (by decide)⟩

end SemScholar
